import Mathlib

/-!
Verification of the Metalink cache-dedup plugin
(`plugins/experimental/metalink/metalink.cc`).

The plugin is a callback-resumed state machine over the Traffic Server
API.  We embed it shallowly:

* The incremental SHA-256 digester (`SHA256_Init` / `SHA256_Update` /
  `SHA256_Final`, provided by OpenSSL and therefore not part of the
  sources under `src/`) is modelled from the spec as a pure streaming
  hash: a running 8-word state, a partial-block buffer and a byte count.
* Each C handler becomes a Lean function that returns the list of
  externally visible effects it performs (cache reads/writes, key
  creation/destruction, buffer and continuation lifecycle, header
  mutation, transaction resumption).  The host's asynchronous
  completions (cache open results, URL-parser verdicts, …) are supplied
  by an environment record, so one Lean function per C function plus a
  driver that chains completion events reproduces every execution of
  the pipeline.
* `TSHandleMLocRelease`, `TSContDataSet`, `TSUrlCreate` and IO-buffer
  reader allocation are bookkeeping with no bearing on the claims and
  are not recorded in the effect traces.
-/

/-! ## SHA-256 (modelled from the spec: OpenSSL `SHA256_Init` /
`SHA256_Update` / `SHA256_Final` used by the body-capture path are not
under `src/`; the streaming contract and the FIPS-180-3 algorithm are
taken from the spec, §4.1) -/

/-- Truncate to a 32-bit word. -/
def w32 (n : Nat) : Nat := n % 4294967296

/-- Right rotation of a 32-bit word. -/
def rotr (n x : Nat) : Nat := w32 ((x >>> n) ||| (x <<< (32 - n)))

/-- Bitwise complement within 32 bits. -/
def bnot32 (x : Nat) : Nat := 4294967295 - w32 x

def bigSigma0 (x : Nat) : Nat := rotr 2 x ^^^ rotr 13 x ^^^ rotr 22 x

def bigSigma1 (x : Nat) : Nat := rotr 6 x ^^^ rotr 11 x ^^^ rotr 25 x

def smallSigma0 (x : Nat) : Nat := rotr 7 x ^^^ rotr 18 x ^^^ (x >>> 3)

def smallSigma1 (x : Nat) : Nat := rotr 17 x ^^^ rotr 19 x ^^^ (x >>> 10)

def chFn (x y z : Nat) : Nat := (x &&& y) ^^^ (bnot32 x &&& z)

def majFn (x y z : Nat) : Nat := (x &&& y) ^^^ (x &&& z) ^^^ (y &&& z)

/-- The 64 SHA-256 round constants. -/
def K256 : List Nat :=
  [1116352408, 1899447441, 3049323471, 3921009573,
   961987163, 1508970993, 2453635748, 2870763221,
   3624381080, 310598401, 607225278, 1426881987,
   1925078388, 2162078206, 2614888103, 3248222580,
   3835390401, 4022224774, 264347078, 604807628,
   770255983, 1249150122, 1555081692, 1996064986,
   2554220882, 2821834349, 2952996808, 3210313671,
   3336571891, 3584528711, 113926993, 338241895,
   666307205, 773529912, 1294757372, 1396182291,
   1695183700, 1986661051, 2177026350, 2456956037,
   2730485921, 2820302411, 3259730800, 3345764771,
   3516065817, 3600352804, 4094571909, 275423344,
   430227734, 506948616, 659060556, 883997877,
   958139571, 1322822218, 1537002063, 1747873779,
   1955562222, 2024104815, 2227730452, 2361852424,
   2428436474, 2756734187, 3204031479, 3329325298]

/-- Big-endian packing of bytes into 32-bit words. -/
def bytesToWords : List Nat → List Nat
  | b0 :: b1 :: b2 :: b3 :: rest =>
    ((b0 % 256) * 16777216 + (b1 % 256) * 65536 + (b2 % 256) * 256 + b3 % 256)
      :: bytesToWords rest
  | _ => []

/-- Message-schedule expansion of the 16 block words to 64 words. -/
def messageWords (w16 : List Nat) : List Nat :=
  (List.range 48).foldl
    (fun w _ =>
      w ++ [w32 (smallSigma1 (w.getD (w.length - 2) 0) + w.getD (w.length - 7) 0 +
                 smallSigma0 (w.getD (w.length - 15) 0) + w.getD (w.length - 16) 0)])
    w16

/-- The eight 32-bit working registers of SHA-256. -/
structure Hash8 where
  a : Nat
  b : Nat
  c : Nat
  d : Nat
  e : Nat
  f : Nat
  g : Nat
  hh : Nat
deriving DecidableEq, Repr

/-- One SHA-256 compression round. -/
def shaRound (s : Hash8) (kw : Nat × Nat) : Hash8 :=
  let t1 := w32 (s.hh + bigSigma1 s.e + chFn s.e s.f s.g + kw.1 + kw.2)
  let t2 := w32 (bigSigma0 s.a + majFn s.a s.b s.c)
  ⟨w32 (t1 + t2), s.a, s.b, s.c, w32 (s.d + t1), s.e, s.f, s.g⟩

/-- SHA-256 compression of one 64-byte block into the running state. -/
def compress (s : Hash8) (block : List Nat) : Hash8 :=
  let w := messageWords (bytesToWords block)
  let r := (K256.zip w).foldl shaRound s
  ⟨w32 (s.a + r.a), w32 (s.b + r.b), w32 (s.c + r.c), w32 (s.d + r.d),
   w32 (s.e + r.e), w32 (s.f + r.f), w32 (s.g + r.g), w32 (s.hh + r.hh)⟩

/-- The SHA-256 initial hash value. -/
def sha256InitHash : Hash8 :=
  ⟨1779033703, 3144134277, 1013904242, 2773480762,
   1359893119, 2600822924, 528734635, 1541459225⟩

/-- Consume all complete 64-byte blocks of `l`, returning the new hash
state and the (< 64 byte) remainder. -/
def processBlocks (s : Hash8) (l : List Nat) : Hash8 × List Nat :=
  if _h64 : 64 ≤ l.length then
    processBlocks (compress s (l.take 64)) (l.drop 64)
  else (s, l)
termination_by l.length
decreasing_by simp [List.length_drop]; omega

/-- Streaming digest state: running hash, buffered partial block, and
total bytes seen (`SHA256_CTX`). -/
structure SHA256_CTX where
  h : Hash8
  buf : List Nat
  len : Nat
deriving DecidableEq, Repr

/-- `SHA256_Init`: fresh streaming state. -/
def SHA256_Init : SHA256_CTX := ⟨sha256InitHash, [], 0⟩

/-- `SHA256_Update`: fold one chunk into the running hash; complete
64-byte blocks of `buffered ++ chunk` are compressed, the rest is
re-buffered. -/
def SHA256_Update (c : SHA256_CTX) (data : List Nat) : SHA256_CTX :=
  let p := processBlocks c.h (c.buf ++ data)
  ⟨p.1, p.2, c.len + data.length⟩

/-- Big-endian 8-byte encoding of the 64-bit message bit length. -/
def lenBytes64 (n : Nat) : List Nat :=
  [n / 2 ^ 56 % 256, n / 2 ^ 48 % 256, n / 2 ^ 40 % 256, n / 2 ^ 32 % 256,
   n / 2 ^ 24 % 256, n / 2 ^ 16 % 256, n / 2 ^ 8 % 256, n % 256]

/-- FIPS-180-3 padding for a message of `len` bytes: `0x80`, zeros to
56 mod 64, then the bit length. -/
def padBytes (len : Nat) : List Nat :=
  128 :: (List.replicate ((119 - len % 64) % 64) 0 ++ lenBytes64 (len * 8))

/-- Big-endian bytes of one 32-bit word. -/
def wordBytes (x : Nat) : List Nat :=
  [x / 16777216 % 256, x / 65536 % 256, x / 256 % 256, x % 256]

/-- Serialize the final hash state to the 32 digest bytes. -/
def serializeHash (s : Hash8) : List Nat :=
  wordBytes s.a ++ wordBytes s.b ++ wordBytes s.c ++ wordBytes s.d ++
  wordBytes s.e ++ wordBytes s.f ++ wordBytes s.g ++ wordBytes s.hh

/-- `SHA256_Final`: pad the buffered tail and emit the 32-byte digest. -/
def SHA256_Final (c : SHA256_CTX) : List Nat :=
  serializeHash (processBlocks c.h (c.buf ++ padBytes c.len)).1

/-! ## Base64 (modelled from the spec: `TSBase64Decode` lives in the
proxy library, not under `src/`; the spec asks for standard base64
decoding of the digest payload, §4.3/§6) -/

/-- Value of one base64 alphabet character. -/
def b64Val (c : Char) : Option Nat :=
  if 'A' ≤ c ∧ c ≤ 'Z' then some (c.toNat - 65)
  else if 'a' ≤ c ∧ c ≤ 'z' then some (c.toNat - 71)
  else if '0' ≤ c ∧ c ≤ '9' then some (c.toNat + 4)
  else if c = '+' then some 62
  else if c = '/' then some 63
  else none

/-- Decode base64 text four characters at a time; `=` padding is only
accepted at the very end.  Fails on any invalid character or on a
length that is not a multiple of four. -/
def b64DecodeCore : List Char → Option (List Nat)
  | [] => some []
  | c1 :: c2 :: c3 :: c4 :: rest =>
    match b64Val c1, b64Val c2 with
    | some v1, some v2 =>
      if c3 = '=' then
        if c4 = '=' ∧ rest = [] then some [v1 * 4 + v2 / 16] else none
      else
        match b64Val c3 with
        | some v3 =>
          if c4 = '=' then
            if rest = [] then some [v1 * 4 + v2 / 16, v2 % 16 * 16 + v3 / 4]
            else none
          else
            match b64Val c4 with
            | some v4 =>
              (b64DecodeCore rest).map
                (fun bs => (v1 * 4 + v2 / 16) :: (v2 % 16 * 16 + v3 / 4) ::
                           (v3 % 4 * 64 + v4) :: bs)
            | none => none
        | none => none
    | _, _ => none
  | _ => none

/-- `TSBase64Decode src dstLen`: standard base64 decode, failing when
the destination buffer would overflow. -/
def tsBase64Decode (s : List Char) (dstLen : Nat) : Option (List Nat) :=
  match b64DecodeCore s with
  | some bs => if bs.length ≤ dstLen then some bs else none
  | none => none

/-! ## Data model of the plugin's externally visible behaviour

Each C handler of `metalink.cc` becomes a Lean function returning the
list of effects it performs.  Asynchronous completions (cache-open
results, the host URL parser, `TSCacheKeyDigestSet` /
`TSCacheKeyDigestFromUrlSet` verdicts) are read from an environment
record `Env`, and the driver chains each handler to the handler that
receives its completion event, so the trace of a whole send-path run is
a single list. -/

/-- The digest a `TSCacheKey` currently wraps: either the digest of a
URL's canonical string (`TSCacheKeyDigestFromUrlSet`) or raw digest
bytes (`TSCacheKeyDigestSet`). -/
inductive KeyVal
  | fromUrl (u : String)
  | fromDigest (d : List Nat)
deriving DecidableEq, Repr

/-- Externally visible actions of the plugin, in program order. -/
inductive Effect
  | alloc          -- TSmalloc of a session record
  | free           -- TSfree of a session record
  | contCreate     -- TSContCreate
  | contDestroy    -- TSContDestroy
  | keyCreate      -- TSCacheKeyCreate
  | keyDestroy     -- TSCacheKeyDestroy
  | bufCreate      -- TSIOBufferCreate
  | bufDestroy     -- TSIOBufferDestroy
  | cacheRead (k : KeyVal)   -- TSCacheRead with the key's current digest
  | cacheWrite (k : KeyVal)  -- TSCacheWrite with the key's current digest
  | hdrClear                 -- TSMimeHdrFieldValuesClear on the Location field
  | hdrInsert (v : String)   -- TSMimeHdrFieldValueStringInsert on the Location field
  | vconnWrite (payload : String)  -- TSVConnWrite of the value payload
  | vconnClose               -- TSVConnClose (commits the cache object)
  | reenable                 -- TSHttpTxnReenable (TS_EVENT_HTTP_CONTINUE)
  | logError                 -- TSLogError
deriving DecidableEq, Repr

def isReenable : Effect → Bool
  | Effect.reenable => true
  | _ => false

def isCacheRead : Effect → Bool
  | Effect.cacheRead _ => true
  | _ => false

/-- A digest-keyed (phase-2) cache read. -/
def isDigestRead : Effect → Bool
  | Effect.cacheRead (KeyVal.fromDigest _) => true
  | _ => false

/-- Any mutation of the Location header. -/
def isHdrMut : Effect → Bool
  | Effect.hdrClear => true
  | Effect.hdrInsert _ => true
  | _ => false

def isKeyCreate : Effect → Bool
  | Effect.keyCreate => true
  | _ => false

def isKeyDestroy : Effect → Bool
  | Effect.keyDestroy => true
  | _ => false

def isBufCreate : Effect → Bool
  | Effect.bufCreate => true
  | _ => false

def isBufDestroy : Effect → Bool
  | Effect.bufDestroy => true
  | _ => false

def isContCreate : Effect → Bool
  | Effect.contCreate => true
  | _ => false

def isContDestroy : Effect → Bool
  | Effect.contDestroy => true
  | _ => false

def isFree : Effect → Bool
  | Effect.free => true
  | _ => false

def isVconnWrite : Effect → Bool
  | Effect.vconnWrite _ => true
  | _ => false

def isVconnClose : Effect → Bool
  | Effect.vconnClose => true
  | _ => false

def isLogError : Effect → Bool
  | Effect.logError => true
  | _ => false

/-- Host-side outcomes consumed by the send path.  `urlParse s = some u`
means `TSUrlParse` returns `TS_PARSE_DONE` on input `s` leaving a URL
object whose `TSUrlStringGet` is `u`; `cacheHasKey k` is the verdict of
the `TSCacheRead` issued with key digest `k` (`TS_EVENT_CACHE_OPEN_READ`
vs `TS_EVENT_CACHE_OPEN_READ_FAILED`); `firstBlock`/`restBlocks` are the
IO-buffer blocks holding the stored value when the digest-phase read
delivers `TS_EVENT_VCONN_READ_READY` (at least one block is readable
then); `junkByte` stands for the uninitialized tail of the 33-byte
decode buffer in `location_handler`. -/
structure Env where
  clientRespOk : Bool
  urlParse : String → Option String
  keyFromUrlOk : String → Bool    -- TSCacheKeyDigestFromUrlSet verdict
  digestSetOk : List Nat → Bool   -- TSCacheKeyDigestSet verdict
  cacheHasKey : KeyVal → Bool
  firstBlock : String
  restBlocks : List String
  junkByte : Nat

/-- The client response headers the send path inspects: the value of the
first `Location` field (none if the field is absent) and the values of
every duplicate `Digest` field instance. -/
structure Resp where
  location : Option String
  digests : List (List String)

/-- The parts of `SendData` the handlers still read once the pipeline is
running: the current contents of the scratch URL object `url_loc`, the
selected `Digest` value, and the current cache-key digest. -/
structure SendState where
  urlLoc : String
  dval : String
  key : KeyVal

/-- The screen applied to one `Digest` value in the scan loop of
`http_send_response_hdr`: `length < 8 + 44` or a case-insensitive
mismatch with `SHA-256=` means the value is skipped. -/
def screenDigestValue (v : String) : Bool :=
  decide (8 + 44 ≤ v.data.length) &&
    ((v.data.take 8).map Char.toLower == "sha-256=".data)

/-- The scan over all duplicate `Digest` field instances and their
values: the first value passing `screenDigestValue` is selected. -/
def findDigestValue : List (List String) → Option String
  | [] => none
  | f :: rest =>
    match f.find? screenDigestValue with
    | some v => some v
    | none => findDigestValue rest

/-- `TSBase64Decode(value + 8, length - 8, digest, 33, NULL)` followed by
`TSCacheKeyDigestSet(key, digest, 32)`: the payload after the 8-byte
prefix is decoded into a 33-byte stack buffer and the first 32 bytes of
that buffer (uninitialized tail included) become the key digest. -/
def digestPayloadBytes (env : Env) (dv : String) : Option (List Nat) :=
  match tsBase64Decode (dv.data.drop 8) 33 with
  | some bs => some ((bs ++ List.replicate 33 env.junkByte).take 32)
  | none => none

/-- `rewrite_handler`: on `TS_EVENT_CACHE_OPEN_READ` clear the Location
field values and insert the string form of `url_loc`; on
`TS_EVENT_CACHE_OPEN_READ_FAILED` do nothing; either way destroy the
key, release handles, reenable the transaction and free the session. -/
def rewrite_handler (env : Env) (st : SendState) : List Effect :=
  Effect.contDestroy ::
    ((if env.cacheHasKey st.key then [Effect.hdrClear, Effect.hdrInsert st.urlLoc]
      else []) ++
     [Effect.keyDestroy, Effect.reenable, Effect.free])

/-- `vconn_read_ready`: parse the first readable block of the stored
value as a URL into `url_loc`; on failure clean up and reenable; on
success rebuild the key from the recovered URL and issue a final
`TSCacheRead` handled by `rewrite_handler`. -/
def vconn_read_ready (env : Env) (st : SendState) : List Effect :=
  Effect.contDestroy ::
    (match env.urlParse env.firstBlock with
     | none =>
       [Effect.bufDestroy, Effect.keyDestroy, Effect.reenable, Effect.free]
     | some u =>
       Effect.bufDestroy ::
         if env.keyFromUrlOk u then
           Effect.contCreate :: Effect.cacheRead (KeyVal.fromUrl u) ::
             rewrite_handler env { st with urlLoc := u, key := KeyVal.fromUrl u }
         else [Effect.keyDestroy, Effect.reenable, Effect.free])

/-- `cache_open_read`: the digest-phase open succeeded; create the read
buffer and issue `TSVConnRead`, whose `TS_EVENT_VCONN_READ_READY`
completion runs `vconn_read_ready`. -/
def cache_open_read (env : Env) (st : SendState) : List Effect :=
  Effect.bufCreate :: vconn_read_ready env st

/-- `cache_open_read_failed`: the digest-phase open failed; destroy the
continuation and key, release handles, reenable, free. -/
def cache_open_read_failed : List Effect :=
  [Effect.contDestroy, Effect.keyDestroy, Effect.reenable, Effect.free]

/-- `digest_handler`: dispatch the completion of the digest-keyed
`TSCacheRead`. -/
def digest_handler (env : Env) (st : SendState) : List Effect :=
  if env.cacheHasKey st.key then cache_open_read env st
  else cache_open_read_failed

/-- `location_handler`: dispatch the completion of the URL-keyed
`TSCacheRead`.  A hit resumes unmodified.  On a miss, re-fetch the
selected `Digest` value, base64-decode its payload and load it into the
key; decode or `TSCacheKeyDigestSet` failure falls through to the
unmodified-resume exit, success issues the digest-keyed `TSCacheRead`
handled by `digest_handler`. -/
def location_handler (env : Env) (st : SendState) : List Effect :=
  Effect.contDestroy ::
    (if env.cacheHasKey st.key then
      [Effect.keyDestroy, Effect.reenable, Effect.free]
     else
      match digestPayloadBytes env st.dval with
      | none => [Effect.keyDestroy, Effect.reenable, Effect.free]
      | some d =>
        if env.digestSetOk d then
          Effect.contCreate :: Effect.cacheRead (KeyVal.fromDigest d) ::
            digest_handler env { st with key := KeyVal.fromDigest d }
        else [Effect.keyDestroy, Effect.reenable, Effect.free])

/-- `http_send_response_hdr`: allocate the session, fetch the client
response headers, require a `Location` field whose value parses as a
URL, build the URL-keyed cache key, scan the `Digest` fields; if a
candidate value passes the screen, issue the URL-keyed `TSCacheRead`
handled by `location_handler`, otherwise (or on any earlier failure)
reenable immediately. -/
def http_send_response_hdr (env : Env) (r : Resp) : List Effect :=
  Effect.alloc ::
    (if env.clientRespOk then
      match r.location with
      | none => [Effect.reenable, Effect.free]
      | some locv =>
        match env.urlParse locv with
        | none => [Effect.reenable, Effect.free]
        | some lu =>
          Effect.keyCreate ::
            if env.keyFromUrlOk lu then
              match findDigestValue r.digests with
              | some dv =>
                Effect.contCreate :: Effect.cacheRead (KeyVal.fromUrl lu) ::
                  location_handler env ⟨lu, dv, KeyVal.fromUrl lu⟩
              | none => [Effect.keyDestroy, Effect.reenable, Effect.free]
            else [Effect.keyDestroy, Effect.reenable, Effect.free]
     else [Effect.logError, Effect.reenable, Effect.free])

/-- The whole send-path pipeline for one response. -/
def sendPath (env : Env) (r : Resp) : List Effect :=
  http_send_response_hdr env r

/-! ## Body-capture path (write side) -/

/-- Host-side outcomes consumed by the body-capture path after the body
has been fully streamed: the `TSCacheKeyDigestSet` verdict, whether the
`TSCacheWrite` open succeeds, and the three steps of retrieving the
client's original request URL (`TSHttpTxnClientReqGet`,
`TSHttpHdrUrlGet`, `TSUrlStringGet`). -/
structure BodyEnv where
  digestSetOk : List Nat → Bool
  openWriteOk : Bool
  clientReqOk : Bool
  reqUrlGetOk : Bool
  reqUrlString : Option String

/-- `write_vconn_write_complete`: the value write finished; destroy the
write continuation, close the cache vconnection (committing the
object), destroy the write buffer and free the write session. -/
def write_vconn_write_complete : List Effect :=
  [Effect.contDestroy, Effect.vconnClose, Effect.bufDestroy, Effect.free]

/-- `cache_open_write`: the digest-keyed open succeeded; destroy the
(already consumed) key, allocate the write session, continuation and
buffer, then retrieve the client's original request URL; any retrieval
failure returns early (only the missing-request-header case logs), a
success writes the URL string as the value payload and awaits
`TS_EVENT_VCONN_WRITE_COMPLETE`. -/
def cache_open_write (env : BodyEnv) : List Effect :=
  Effect.keyDestroy :: Effect.alloc :: Effect.contCreate :: Effect.bufCreate ::
    (if env.clientReqOk then
      if env.reqUrlGetOk then
        match env.reqUrlString with
        | some u => Effect.vconnWrite u :: write_vconn_write_complete
        | none => []
      else []
     else [Effect.logError])

/-- `cache_open_write_failed`: destroy the key; nothing else. -/
def cache_open_write_failed : List Effect :=
  [Effect.keyDestroy]

/-- The tail of `vconn_write_ready` once the upstream stream is
finished: after `SHA256_Final` yields `digest`, create the cache key,
load the digest into it (returning early — without destroying the key —
if that fails), and issue the digest-keyed `TSCacheWrite`, whose
completion event runs `cache_open_write` / `cache_open_write_failed`. -/
def vconn_write_ready_finish (env : BodyEnv) (digest : List Nat) : List Effect :=
  Effect.keyCreate ::
    (if env.digestSetOk digest then
      Effect.cacheWrite (KeyVal.fromDigest digest) ::
        (if env.openWriteOk then cache_open_write env
         else cache_open_write_failed)
     else [])

/-! ## Concrete specimens used to instantiate the claims -/

/-- 32 zero bytes (the digest decoded from 44 `A` characters). -/
def zeros32 : List Nat := List.replicate 32 0

/-- A well-formed `Digest` value: `SHA-256=` followed by 44 valid base64
characters. -/
def goodDigestValue : String := String.mk ("SHA-256=".data ++ List.replicate 44 'A')

/-- A `Digest` value that passes the scan screen (length and prefix) but
whose payload is not valid base64. -/
def badDigestValue : String := String.mk ("SHA-256=".data ++ List.replicate 44 '!')

def locUrlStr : String := "http://example.com/loc"

def storedUrlStr : String := "http://example.com/stored"

def reqUrlStr : String := "http://example.com/req"

/-- Environment: URL-phase miss, digest-phase hit, final recovered-URL
read miss. -/
def envC1 : Env :=
  { clientRespOk := true
    urlParse := fun s => if s = locUrlStr ∨ s = storedUrlStr then some s else none
    keyFromUrlOk := fun _ => true
    digestSetOk := fun _ => true
    cacheHasKey := fun k =>
      match k with
      | KeyVal.fromDigest _ => true
      | KeyVal.fromUrl _ => false
    firstBlock := storedUrlStr
    restBlocks := []
    junkByte := 0 }

def respC1 : Resp := ⟨some locUrlStr, [[goodDigestValue]]⟩

/-- Environment: URL-phase miss, digest-phase hit, final recovered-URL
read hit. -/
def envC1w : Env :=
  { clientRespOk := true
    urlParse := fun s => if s = locUrlStr ∨ s = storedUrlStr then some s else none
    keyFromUrlOk := fun _ => true
    digestSetOk := fun _ => true
    cacheHasKey := fun k =>
      match k with
      | KeyVal.fromDigest _ => true
      | KeyVal.fromUrl u => u == storedUrlStr
    firstBlock := storedUrlStr
    restBlocks := []
    junkByte := 0 }

/-- Environment: every cache read misses. -/
def envC3 : Env :=
  { clientRespOk := true
    urlParse := fun s => if s = locUrlStr then some s else none
    keyFromUrlOk := fun _ => true
    digestSetOk := fun _ => true
    cacheHasKey := fun _ => false
    firstBlock := ""
    restBlocks := []
    junkByte := 0 }

def respC3 : Resp := ⟨some locUrlStr, [[badDigestValue]]⟩

/-- A response whose `Digest` values all fail the scan screen. -/
def respC3w : Resp := ⟨some locUrlStr, [["short"], ["MD5=xyz"]]⟩

/-- Environment: URL-phase miss but every digest-keyed entry present. -/
def envC4 : Env :=
  { clientRespOk := true
    urlParse := fun s => if s = locUrlStr ∨ s = storedUrlStr then some s else none
    keyFromUrlOk := fun _ => true
    digestSetOk := fun _ => true
    cacheHasKey := fun k =>
      match k with
      | KeyVal.fromDigest _ => true
      | KeyVal.fromUrl _ => false
    firstBlock := storedUrlStr
    restBlocks := []
    junkByte := 0 }

/-- A malformed-payload value followed by a perfectly good one. -/
def respC4 : Resp := ⟨some locUrlStr, [[badDigestValue, goodDigestValue]]⟩

/-- Environment: the URL-phase read hits. -/
def envC5 : Env :=
  { clientRespOk := true
    urlParse := fun s => if s = locUrlStr then some s else none
    keyFromUrlOk := fun _ => true
    digestSetOk := fun _ => true
    cacheHasKey := fun k =>
      match k with
      | KeyVal.fromUrl u => u == locUrlStr
      | _ => false
    firstBlock := ""
    restBlocks := []
    junkByte := 0 }

def respC5 : Resp := ⟨some locUrlStr, [[goodDigestValue]]⟩

/-- A mid-pipeline state as `vconn_read_ready` sees it. -/
def stC10 : SendState := ⟨locUrlStr, goodDigestValue, KeyVal.fromDigest zeros32⟩

/-- Body path: `TSCacheKeyDigestSet` fails after finalize. -/
def bodyEnvC6 : BodyEnv := ⟨fun _ => false, true, true, true, some reqUrlStr⟩

/-- Body path: everything succeeds. -/
def bodyEnvC7 : BodyEnv := ⟨fun _ => true, true, true, true, some reqUrlStr⟩

/-- Body path: open-for-write succeeds but the client request header
cannot be retrieved. -/
def bodyEnvC9 : BodyEnv := ⟨fun _ => true, true, false, true, some reqUrlStr⟩

/-! ## Lemmas about the streaming digester -/

theorem processBlocks_eq (s : Hash8) (l : List Nat) :
    processBlocks s l =
      if 64 ≤ l.length then processBlocks (compress s (l.take 64)) (l.drop 64)
      else (s, l) := by
  rw [processBlocks]
  split <;> rfl

theorem processBlocks_append_aux (n : Nat) :
    ∀ (x : List Nat), x.length ≤ n → ∀ (s : Hash8) (y : List Nat),
      processBlocks (processBlocks s x).1 ((processBlocks s x).2 ++ y)
        = processBlocks s (x ++ y) := by
  induction n with
  | zero =>
    intro x hx s y
    have hx0 : ¬ 64 ≤ x.length := by omega
    rw [processBlocks_eq s x, if_neg hx0]
  | succ n ih =>
    intro x hx s y
    by_cases h64 : 64 ≤ x.length
    · have hxy : 64 ≤ (x ++ y).length := by
        simp [List.length_append]; omega
      rw [processBlocks_eq s x, if_pos h64, processBlocks_eq s (x ++ y), if_pos hxy,
        List.take_append_of_le_length h64, List.drop_append_of_le_length h64]
      exact ih (x.drop 64) (by simp [List.length_drop]; omega) _ y
    · rw [processBlocks_eq s x, if_neg h64]

theorem processBlocks_append (x y : List Nat) (s : Hash8) :
    processBlocks (processBlocks s x).1 ((processBlocks s x).2 ++ y)
      = processBlocks s (x ++ y) :=
  processBlocks_append_aux x.length x (le_refl _) s y

theorem processBlocks_snd_lt_aux (n : Nat) :
    ∀ (x : List Nat), x.length ≤ n → ∀ (s : Hash8),
      (processBlocks s x).2.length < 64 := by
  induction n with
  | zero =>
    intro x hx s
    have hx0 : ¬ 64 ≤ x.length := by omega
    rw [processBlocks_eq s x, if_neg hx0]
    show x.length < 64
    omega
  | succ n ih =>
    intro x hx s
    by_cases h64 : 64 ≤ x.length
    · rw [processBlocks_eq s x, if_pos h64]
      exact ih (x.drop 64) (by simp [List.length_drop]; omega) _
    · rw [processBlocks_eq s x, if_neg h64]
      show x.length < 64
      omega

theorem processBlocks_snd_lt (x : List Nat) (s : Hash8) :
    (processBlocks s x).2.length < 64 :=
  processBlocks_snd_lt_aux x.length x (le_refl _) s

/-- Two consecutive updates are one update on the concatenation. -/
theorem SHA256_Update_append (c : SHA256_CTX) (a b : List Nat) :
    SHA256_Update (SHA256_Update c a) b = SHA256_Update c (a ++ b) := by
  have hp := processBlocks_append (c.buf ++ a) b c.h
  simp only [SHA256_Update]
  rw [List.append_assoc] at hp
  rw [hp]
  simp [Nat.add_assoc, List.length_append]

/-- An empty update is a no-op on states with a partial buffer. -/
theorem SHA256_Update_nil (c : SHA256_CTX) (hc : c.buf.length < 64) :
    SHA256_Update c [] = c := by
  simp only [SHA256_Update, List.append_nil]
  rw [processBlocks_eq, if_neg (by omega)]
  simp

/-- Updates keep the partial buffer below one block. -/
theorem SHA256_Update_buf_lt (c : SHA256_CTX) (data : List Nat) :
    (SHA256_Update c data).buf.length < 64 :=
  processBlocks_snd_lt _ _

/-- Folding chunks through the digester equals one update on the
flattened stream. -/
theorem foldl_SHA256_Update_flatten (chunks : List (List Nat)) :
    ∀ (c : SHA256_CTX), c.buf.length < 64 →
      List.foldl SHA256_Update c chunks = SHA256_Update c chunks.flatten := by
  induction chunks with
  | nil =>
    intro c hc
    simp [SHA256_Update_nil c hc]
  | cons x xs ih =>
    intro c hc
    simp only [List.foldl_cons, List.flatten_cons]
    rw [ih (SHA256_Update c x) (SHA256_Update_buf_lt c x), SHA256_Update_append]

/-- C8: folding any two chunkings of the same byte stream through the
incremental SHA-256 update and then finalizing yields the same digest,
and that digest is 32 bytes long. -/
theorem sha256_chunking_independent (c1 c2 : List (List Nat))
    (hj : c1.flatten = c2.flatten) :
    SHA256_Final (List.foldl SHA256_Update SHA256_Init c1)
      = SHA256_Final (List.foldl SHA256_Update SHA256_Init c2)
    ∧ (SHA256_Final (List.foldl SHA256_Update SHA256_Init c1)).length = 32 := by
  have hb : SHA256_Init.buf.length < 64 := by
    simp [SHA256_Init]
  rw [foldl_SHA256_Update_flatten c1 SHA256_Init hb,
    foldl_SHA256_Update_flatten c2 SHA256_Init hb, hj]
  constructor
  · rfl
  · rfl

/-- Witness for C8 at a concrete split: `[104, 105] ++ [33]` versus
`[104] ++ [105, 33]`. -/
theorem sha256_chunking_independent_witness :
    ([[104, 105], [33]] : List (List Nat)).flatten = [[104], [105, 33]].flatten
    ∧ (SHA256_Final (List.foldl SHA256_Update SHA256_Init [[104, 105], [33]])
        = SHA256_Final (List.foldl SHA256_Update SHA256_Init [[104], [105, 33]])
      ∧ (SHA256_Final (List.foldl SHA256_Update SHA256_Init [[104, 105], [33]])).length = 32) :=
  ⟨by decide, sha256_chunking_independent [[104, 105], [33]] [[104], [105, 33]] (by decide)⟩

/-! ## Single-resume guarantee on the send path -/

theorem rewrite_handler_reenable (env : Env) (st : SendState) :
    (rewrite_handler env st).countP isReenable = 1 := by
  by_cases h : env.cacheHasKey st.key <;>
    simp [rewrite_handler, h, isReenable]

theorem vconn_read_ready_reenable (env : Env) (st : SendState) :
    (vconn_read_ready env st).countP isReenable = 1 := by
  rcases hp : env.urlParse env.firstBlock with _ | u
  · simp [vconn_read_ready, hp, isReenable]
  · by_cases hk : env.keyFromUrlOk u
    · simp [vconn_read_ready, hp, hk, isReenable, rewrite_handler_reenable]
    · simp [vconn_read_ready, hp, hk, isReenable]

theorem digest_handler_reenable (env : Env) (st : SendState) :
    (digest_handler env st).countP isReenable = 1 := by
  by_cases h : env.cacheHasKey st.key <;>
    simp [digest_handler, cache_open_read, cache_open_read_failed, h, isReenable,
      vconn_read_ready_reenable]

theorem location_handler_reenable (env : Env) (st : SendState) :
    (location_handler env st).countP isReenable = 1 := by
  by_cases h : env.cacheHasKey st.key
  · simp [location_handler, h, isReenable]
  · rcases hd : digestPayloadBytes env st.dval with _ | d
    · simp [location_handler, h, hd, isReenable]
    · by_cases hs : env.digestSetOk d <;>
        simp [location_handler, h, hd, hs, isReenable, digest_handler_reenable]

/-- C2: every response entering `http_send_response_hdr` is reenabled
(`TSHttpTxnReenable`) exactly once, whichever terminal branch the
pipeline takes. -/
theorem send_path_single_reenable (env : Env) (r : Resp) :
    (sendPath env r).countP isReenable = 1 := by
  by_cases hc : env.clientRespOk
  · rcases hl : r.location with _ | locv
    · simp [sendPath, http_send_response_hdr, hc, hl, isReenable]
    · rcases hp : env.urlParse locv with _ | lu
      · simp [sendPath, http_send_response_hdr, hc, hl, hp, isReenable]
      · by_cases hk : env.keyFromUrlOk lu
        · rcases hf : findDigestValue r.digests with _ | dv
          · simp [sendPath, http_send_response_hdr, hc, hl, hp, hk, hf, isReenable]
          · simp [sendPath, http_send_response_hdr, hc, hl, hp, hk, hf, isReenable,
              location_handler_reenable]
        · simp [sendPath, http_send_response_hdr, hc, hl, hp, hk, isReenable]
  · simp [sendPath, http_send_response_hdr, hc, isReenable]

/-! ## URL-phase hit short-circuit (C5) and the digest-phase hit path (C1) -/

/-- C5: when the URL-phase cache open-for-read (keyed by the declared
canonical Location URL) succeeds, the trace is exactly the URL-keyed
read followed by cleanup and a single resume: no digest-phase lookup is
issued, no header is mutated, and the response is resumed unmodified. -/
theorem url_phase_hit_resumes_unmodified (env : Env) (r : Resp)
    (lv lu dv : String)
    (hc : env.clientRespOk = true)
    (hl : r.location = some lv)
    (hp : env.urlParse lv = some lu)
    (hk : env.keyFromUrlOk lu = true)
    (hf : findDigestValue r.digests = some dv)
    (hhit : env.cacheHasKey (KeyVal.fromUrl lu) = true) :
    sendPath env r =
      [Effect.alloc, Effect.keyCreate, Effect.contCreate,
       Effect.cacheRead (KeyVal.fromUrl lu), Effect.contDestroy,
       Effect.keyDestroy, Effect.reenable, Effect.free] := by
  simp [sendPath, http_send_response_hdr, location_handler, hc, hl, hp, hk, hf, hhit]

/-- Witness for C5 in the concrete environment `envC5`. -/
theorem url_phase_hit_resumes_unmodified_witness :
    (envC5.clientRespOk = true
     ∧ respC5.location = some locUrlStr
     ∧ envC5.urlParse locUrlStr = some locUrlStr
     ∧ envC5.keyFromUrlOk locUrlStr = true
     ∧ findDigestValue respC5.digests = some goodDigestValue
     ∧ envC5.cacheHasKey (KeyVal.fromUrl locUrlStr) = true)
    ∧ sendPath envC5 respC5 =
        [Effect.alloc, Effect.keyCreate, Effect.contCreate,
         Effect.cacheRead (KeyVal.fromUrl locUrlStr), Effect.contDestroy,
         Effect.keyDestroy, Effect.reenable, Effect.free] :=
  ⟨⟨by decide, by decide, by decide, by decide, by decide, by decide⟩,
   url_phase_hit_resumes_unmodified envC5 respC5 locUrlStr locUrlStr goodDigestValue
     (by decide) (by decide) (by decide) (by decide) (by decide) (by decide)⟩

/-- C1 counterexample: in `envC1` the digest-phase open-for-read
succeeds and the stored value parses as a URL, yet the Location header
is never cleared nor replaced, because the additional cache read that
`vconn_read_ready` issues under the recovered URL fails.  The claim's
conclusion (clear + replace) is false at this input. -/
theorem digest_hit_without_rewrite :
    envC1.cacheHasKey (KeyVal.fromDigest zeros32) = true
    ∧ envC1.urlParse envC1.firstBlock = some storedUrlStr
    ∧ (sendPath envC1 respC1).countP isDigestRead = 1
    ∧ (sendPath envC1 respC1).countP isHdrMut = 0
    ∧ (sendPath envC1 respC1).countP isReenable = 1 := by
  decide

/-- C1 as amended: after a digest-phase hit whose stored value parses as
URL `u`, the Location header is cleared and replaced with `u` — and the
response resumed — only when, additionally, rebuilding the cache key
from `u` succeeds and the final cache open-for-read keyed by `u`
succeeds; the full trace is then explicit below. -/
theorem digest_hit_rewrite_trace (env : Env) (r : Resp)
    (lv lu dv u : String) (d : List Nat)
    (hc : env.clientRespOk = true)
    (hl : r.location = some lv)
    (hp : env.urlParse lv = some lu)
    (hk : env.keyFromUrlOk lu = true)
    (hf : findDigestValue r.digests = some dv)
    (hmiss : env.cacheHasKey (KeyVal.fromUrl lu) = false)
    (hd : digestPayloadBytes env dv = some d)
    (hds : env.digestSetOk d = true)
    (hhit : env.cacheHasKey (KeyVal.fromDigest d) = true)
    (hu : env.urlParse env.firstBlock = some u)
    (hku : env.keyFromUrlOk u = true)
    (hfin : env.cacheHasKey (KeyVal.fromUrl u) = true) :
    sendPath env r =
      [Effect.alloc, Effect.keyCreate, Effect.contCreate,
       Effect.cacheRead (KeyVal.fromUrl lu), Effect.contDestroy,
       Effect.contCreate, Effect.cacheRead (KeyVal.fromDigest d),
       Effect.bufCreate, Effect.contDestroy, Effect.bufDestroy,
       Effect.contCreate, Effect.cacheRead (KeyVal.fromUrl u),
       Effect.contDestroy, Effect.hdrClear, Effect.hdrInsert u,
       Effect.keyDestroy, Effect.reenable, Effect.free] := by
  simp [sendPath, http_send_response_hdr, location_handler, digest_handler,
    cache_open_read, vconn_read_ready, rewrite_handler,
    hc, hl, hp, hk, hf, hmiss, hd, hds, hhit, hu, hku, hfin]

/-- Witness for the amended C1 in the concrete environment `envC1w`. -/
theorem digest_hit_rewrite_trace_witness :
    (envC1w.cacheHasKey (KeyVal.fromUrl locUrlStr) = false
     ∧ digestPayloadBytes envC1w goodDigestValue = some zeros32
     ∧ envC1w.cacheHasKey (KeyVal.fromDigest zeros32) = true
     ∧ envC1w.urlParse envC1w.firstBlock = some storedUrlStr
     ∧ envC1w.cacheHasKey (KeyVal.fromUrl storedUrlStr) = true)
    ∧ sendPath envC1w respC1 =
        [Effect.alloc, Effect.keyCreate, Effect.contCreate,
         Effect.cacheRead (KeyVal.fromUrl locUrlStr), Effect.contDestroy,
         Effect.contCreate, Effect.cacheRead (KeyVal.fromDigest zeros32),
         Effect.bufCreate, Effect.contDestroy, Effect.bufDestroy,
         Effect.contCreate, Effect.cacheRead (KeyVal.fromUrl storedUrlStr),
         Effect.contDestroy, Effect.hdrClear, Effect.hdrInsert storedUrlStr,
         Effect.keyDestroy, Effect.reenable, Effect.free] :=
  ⟨⟨by decide, by decide, by decide, by decide, by decide⟩,
   digest_hit_rewrite_trace envC1w respC1 locUrlStr locUrlStr goodDigestValue
     storedUrlStr zeros32
     (by decide) (by decide) (by decide) (by decide) (by decide) (by decide)
     (by decide) (by decide) (by decide) (by decide) (by decide) (by decide)⟩

/-! ## Malformed `Digest` values (C3, C4) -/

/-- If every value of every `Digest` field instance fails the scan
screen, the scan selects nothing. -/
theorem findDigestValue_none (ds : List (List String))
    (h : ∀ f ∈ ds, ∀ v ∈ f, screenDigestValue v = false) :
    findDigestValue ds = none := by
  induction ds with
  | nil => rfl
  | cons f rest ih =>
    have hf : f.find? screenDigestValue = none :=
      List.find?_eq_none.mpr (fun v hv => by simp [h f (by simp) v hv])
    rw [findDigestValue, hf]
    exact ih (fun g hg v hv => h g (by simp [hg]) v hv)

/-- When the scan selects no candidate, no cache read is issued at all,
no header is mutated, and the response is resumed exactly once. -/
theorem no_candidate_no_read (env : Env) (r : Resp)
    (hfd : findDigestValue r.digests = none) :
    (sendPath env r).countP isCacheRead = 0
    ∧ (sendPath env r).countP isHdrMut = 0
    ∧ (sendPath env r).countP isReenable = 1 := by
  by_cases hc : env.clientRespOk
  · rcases hl : r.location with _ | locv
    · simp [sendPath, http_send_response_hdr, hc, hl, isCacheRead, isHdrMut, isReenable]
    · rcases hp : env.urlParse locv with _ | lu
      · simp [sendPath, http_send_response_hdr, hc, hl, hp, isCacheRead, isHdrMut, isReenable]
      · by_cases hk : env.keyFromUrlOk lu <;>
          simp [sendPath, http_send_response_hdr, hc, hl, hp, hk, hfd,
            isCacheRead, isHdrMut, isReenable]
  · simp [sendPath, http_send_response_hdr, hc, isCacheRead, isHdrMut, isReenable]

/-- When the selected candidate's base64 payload does not decode, the
pipeline never reaches the digest phase: at most the URL-phase read is
issued, no header is mutated, and the response is resumed once. -/
theorem decode_failure_counts (env : Env) (r : Resp) (dv : String)
    (hfd : findDigestValue r.digests = some dv)
    (hnone : digestPayloadBytes env dv = none) :
    (sendPath env r).countP isDigestRead = 0
    ∧ (sendPath env r).countP isCacheRead ≤ 1
    ∧ (sendPath env r).countP isHdrMut = 0
    ∧ (sendPath env r).countP isReenable = 1 := by
  by_cases hc : env.clientRespOk
  · rcases hl : r.location with _ | locv
    · simp [sendPath, http_send_response_hdr, hc, hl, isDigestRead, isCacheRead,
        isHdrMut, isReenable]
    · rcases hp : env.urlParse locv with _ | lu
      · simp [sendPath, http_send_response_hdr, hc, hl, hp, isDigestRead, isCacheRead,
          isHdrMut, isReenable]
      · by_cases hk : env.keyFromUrlOk lu
        · by_cases hhit : env.cacheHasKey (KeyVal.fromUrl lu) <;>
            simp [sendPath, http_send_response_hdr, location_handler, hc, hl, hp, hk,
              hfd, hhit, hnone, isDigestRead, isCacheRead, isHdrMut, isReenable]
        · simp [sendPath, http_send_response_hdr, hc, hl, hp, hk, isDigestRead,
            isCacheRead, isHdrMut, isReenable]
  · simp [sendPath, http_send_response_hdr, hc, isDigestRead, isCacheRead, isHdrMut,
      isReenable]

/-- C3 as amended: a `Digest` value shorter than 52 characters or
without the case-insensitive `SHA-256=` prefix is never selected by the
scan, and when all values are of that kind no cache read occurs at all;
a selected value whose base64 payload fails to decode still lets the
already-issued URL-phase read stand (at most one read in the trace) but
never triggers a digest-phase read; in every such case the response is
passed through with no header mutation and resumed exactly once. -/
theorem malformed_digest_robustness (env : Env) (r : Resp)
    (hmal : (∀ f ∈ r.digests, ∀ v ∈ f, screenDigestValue v = false)
      ∨ (∃ dv, findDigestValue r.digests = some dv
          ∧ digestPayloadBytes env dv = none)) :
    (sendPath env r).countP isDigestRead = 0
    ∧ (sendPath env r).countP isCacheRead ≤ 1
    ∧ (sendPath env r).countP isHdrMut = 0
    ∧ (sendPath env r).countP isReenable = 1 := by
  rcases hmal with hall | ⟨dv, hfd, hnone⟩
  · obtain ⟨h0, h1, h2⟩ := no_candidate_no_read env r (findDigestValue_none _ hall)
    have hmono : (sendPath env r).countP isDigestRead ≤ (sendPath env r).countP isCacheRead := by
      refine List.countP_mono_left (fun e _ he => ?_)
      cases e <;> simp_all [isDigestRead, isCacheRead]
    exact ⟨by omega, by omega, h1, h2⟩
  · exact decode_failure_counts env r dv hfd hnone

/-- Witness for the amended C3: the only `Digest` value of `respC3`
passes the screen but fails base64 decoding. -/
theorem malformed_digest_robustness_witness :
    (sendPath envC3 respC3).countP isDigestRead = 0
    ∧ (sendPath envC3 respC3).countP isCacheRead ≤ 1
    ∧ (sendPath envC3 respC3).countP isHdrMut = 0
    ∧ (sendPath envC3 respC3).countP isReenable = 1 :=
  malformed_digest_robustness envC3 respC3
    (Or.inr ⟨badDigestValue, by decide, by decide⟩)

/-- C3 counterexample: `badDigestValue` is 52 characters, carries the
`SHA-256=` prefix, and its payload fails base64 decoding — yet the
response carrying it does trigger a cache read (the URL-phase read is
issued before the payload is ever decoded), refuting "no cache read is
ever triggered by that value". -/
theorem bad_base64_still_triggers_read :
    screenDigestValue badDigestValue = true
    ∧ digestPayloadBytes envC3 badDigestValue = none
    ∧ (sendPath envC3 respC3).countP isCacheRead = 1
    ∧ (sendPath envC3 respC3).countP isHdrMut = 0 := by
  decide

/-- C4 counterexample: in `respC4` the first `Digest` value passes the
screen but fails base64 decoding, while the next value decodes to a
digest whose cache entry exists; the claim says scanning continues to
that next candidate, but the trace shows no digest-phase read and an
unmodified resume — the resolution attempt terminated instead. -/
theorem decode_failure_stops_scan :
    findDigestValue respC4.digests = some badDigestValue
    ∧ digestPayloadBytes envC4 goodDigestValue = some zeros32
    ∧ envC4.cacheHasKey (KeyVal.fromDigest zeros32) = true
    ∧ (sendPath envC4 respC4).countP isDigestRead = 0
    ∧ (sendPath envC4 respC4).countP isHdrMut = 0
    ∧ (sendPath envC4 respC4).countP isReenable = 1 := by
  decide

/-- C4 as amended: when the base64 payload of the matched `Digest` value
fails to decode (after a URL-phase miss), the resolution attempt
terminates: the key is destroyed, the response is resumed unmodified,
and no further candidate value is examined — the trace ends right
there. -/
theorem decode_failure_terminates (env : Env) (r : Resp) (lv lu dv : String)
    (hc : env.clientRespOk = true)
    (hl : r.location = some lv)
    (hp : env.urlParse lv = some lu)
    (hk : env.keyFromUrlOk lu = true)
    (hfd : findDigestValue r.digests = some dv)
    (hmiss : env.cacheHasKey (KeyVal.fromUrl lu) = false)
    (hnone : digestPayloadBytes env dv = none) :
    sendPath env r =
      [Effect.alloc, Effect.keyCreate, Effect.contCreate,
       Effect.cacheRead (KeyVal.fromUrl lu), Effect.contDestroy,
       Effect.keyDestroy, Effect.reenable, Effect.free] := by
  simp [sendPath, http_send_response_hdr, location_handler, hc, hl, hp, hk, hfd,
    hmiss, hnone]

/-- Witness for the amended C4 in `envC4` / `respC4`. -/
theorem decode_failure_terminates_witness :
    sendPath envC4 respC4 =
      [Effect.alloc, Effect.keyCreate, Effect.contCreate,
       Effect.cacheRead (KeyVal.fromUrl locUrlStr), Effect.contDestroy,
       Effect.keyDestroy, Effect.reenable, Effect.free] :=
  decode_failure_terminates envC4 respC4 locUrlStr locUrlStr badDigestValue
    (by decide) (by decide) (by decide) (by decide) (by decide) (by decide) (by decide)

/-! ## First-block-only read of the stored value (C10) -/

/-- C10: on the digest-phase read-ready event, `vconn_read_ready`
consults only the first contiguous buffer block of the stored value —
its behaviour is invariant under the remaining blocks — and when that
first-block prefix parses as URL `u` (and the rebuilt key and final read
succeed) it is `u` that is inserted as the rewrite target. -/
theorem first_block_only (env : Env) (st : SendState) :
    (∀ rest, vconn_read_ready { env with restBlocks := rest } st
        = vconn_read_ready env st)
    ∧ (∀ u, env.urlParse env.firstBlock = some u → env.keyFromUrlOk u = true →
        env.cacheHasKey (KeyVal.fromUrl u) = true →
        vconn_read_ready env st =
          [Effect.contDestroy, Effect.bufDestroy, Effect.contCreate,
           Effect.cacheRead (KeyVal.fromUrl u), Effect.contDestroy,
           Effect.hdrClear, Effect.hdrInsert u,
           Effect.keyDestroy, Effect.reenable, Effect.free]) := by
  constructor
  · intro rest
    rfl
  · intro u hu hk hc
    simp [vconn_read_ready, rewrite_handler, hu, hk, hc]

/-- Witness for C10 in `envC1w`, with an arbitrary non-empty block
tail. -/
theorem first_block_only_witness :
    vconn_read_ready { envC1w with restBlocks := ["ignored tail"] } stC10
      = vconn_read_ready envC1w stC10
    ∧ vconn_read_ready envC1w stC10 =
        [Effect.contDestroy, Effect.bufDestroy, Effect.contCreate,
         Effect.cacheRead (KeyVal.fromUrl storedUrlStr), Effect.contDestroy,
         Effect.hdrClear, Effect.hdrInsert storedUrlStr,
         Effect.keyDestroy, Effect.reenable, Effect.free] :=
  ⟨(first_block_only envC1w stC10).1 ["ignored tail"],
   (first_block_only envC1w stC10).2 storedUrlStr (by decide) (by decide) (by decide)⟩

/-! ## Body-capture path: key lifecycle and commit (C6, C7, C9) -/

/-- C6 (bug exhibit): when `TSCacheKeyDigestSet` fails after finalize,
`vconn_write_ready` returns with the freshly created key neither used
nor destroyed — the trace is exactly one `keyCreate` and contains no
`keyDestroy`, so the key leaks on this exit path. -/
theorem digest_set_failure_leaks_key :
    vconn_write_ready_finish bodyEnvC6 zeros32 = [Effect.keyCreate]
    ∧ (vconn_write_ready_finish bodyEnvC6 zeros32).countP isKeyCreate = 1
    ∧ (vconn_write_ready_finish bodyEnvC6 zeros32).countP isKeyDestroy = 0 := by
  decide

/-- C7: when the digest-keyed open-for-write succeeds and the client's
original request URL is retrievable, the prior key is destroyed, the
value payload written is exactly that request URL string, and the
write-complete event closes the cache vconnection, committing the
mapping. -/
theorem open_write_success_commits (env : BodyEnv) (d : List Nat) (u : String)
    (hds : env.digestSetOk d = true)
    (how : env.openWriteOk = true)
    (hcr : env.clientReqOk = true)
    (hug : env.reqUrlGetOk = true)
    (hus : env.reqUrlString = some u) :
    vconn_write_ready_finish env d =
      [Effect.keyCreate, Effect.cacheWrite (KeyVal.fromDigest d),
       Effect.keyDestroy, Effect.alloc, Effect.contCreate, Effect.bufCreate,
       Effect.vconnWrite u, Effect.contDestroy, Effect.vconnClose,
       Effect.bufDestroy, Effect.free] := by
  simp [vconn_write_ready_finish, cache_open_write, write_vconn_write_complete,
    hds, how, hcr, hug, hus]

/-- Witness for C7 in `bodyEnvC7`. -/
theorem open_write_success_commits_witness :
    vconn_write_ready_finish bodyEnvC7 zeros32 =
      [Effect.keyCreate, Effect.cacheWrite (KeyVal.fromDigest zeros32),
       Effect.keyDestroy, Effect.alloc, Effect.contCreate, Effect.bufCreate,
       Effect.vconnWrite reqUrlStr, Effect.contDestroy, Effect.vconnClose,
       Effect.bufDestroy, Effect.free] :=
  open_write_success_commits bodyEnvC7 zeros32 reqUrlStr
    (by decide) (by decide) (by decide) (by decide) (by decide)

/-- C9 counterexample: when the open-for-write succeeds but the client
request header cannot be retrieved, `cache_open_write` has already
allocated the write session, continuation and buffer and leaves all of
them unreleased, and the opened cache-write vconnection is never
closed — whereas the open-failure branch (`cache_open_write_failed`)
acquires nothing and destroys only the key.  "No side effects / same
resource-release behaviour as the open-failure branch" is false at this
input. -/
theorem req_url_failure_leaks :
    (cache_open_write bodyEnvC9).countP isBufCreate = 1
    ∧ (cache_open_write bodyEnvC9).countP isBufDestroy = 0
    ∧ (cache_open_write bodyEnvC9).countP isContCreate = 1
    ∧ (cache_open_write bodyEnvC9).countP isContDestroy = 0
    ∧ (cache_open_write bodyEnvC9).countP isFree = 0
    ∧ (cache_open_write bodyEnvC9).countP isVconnClose = 0
    ∧ cache_open_write_failed = [Effect.keyDestroy] := by
  decide

/-- C9 as amended: failure to retrieve the request URL at open-write
time stops the stage without writing or committing anything (no value
write, no vconnection close) and, like the open-failure branch, the
cache key is created and destroyed exactly once; but only the
missing-request-header sub-case logs an error, and the already
allocated write session, continuation and buffer are left
unreleased. -/
theorem req_url_failure_outcome (env : BodyEnv) (d : List Nat)
    (hds : env.digestSetOk d = true)
    (how : env.openWriteOk = true)
    (hfail : env.clientReqOk = false ∨ env.reqUrlGetOk = false
      ∨ env.reqUrlString = none) :
    (vconn_write_ready_finish env d).countP isVconnWrite = 0
    ∧ (vconn_write_ready_finish env d).countP isVconnClose = 0
    ∧ (vconn_write_ready_finish env d).countP isKeyCreate = 1
    ∧ (vconn_write_ready_finish env d).countP isKeyDestroy = 1
    ∧ (vconn_write_ready_finish env d).countP isBufCreate = 1
    ∧ (vconn_write_ready_finish env d).countP isBufDestroy = 0
    ∧ (vconn_write_ready_finish env d).countP isContCreate = 1
    ∧ (vconn_write_ready_finish env d).countP isContDestroy = 0
    ∧ (vconn_write_ready_finish env d).countP isFree = 0
    ∧ (vconn_write_ready_finish env d).countP isLogError
        = (if env.clientReqOk then 0 else 1) := by
  rcases hfail with h1 | h2 | h3
  · simp [vconn_write_ready_finish, cache_open_write, hds, how, h1,
      isVconnWrite, isVconnClose, isKeyCreate, isKeyDestroy, isBufCreate,
      isBufDestroy, isContCreate, isContDestroy, isFree, isLogError]
  · by_cases h1 : env.clientReqOk <;>
      simp [vconn_write_ready_finish, cache_open_write, hds, how, h1, h2,
        isVconnWrite, isVconnClose, isKeyCreate, isKeyDestroy, isBufCreate,
        isBufDestroy, isContCreate, isContDestroy, isFree, isLogError]
  · by_cases h1 : env.clientReqOk
    · by_cases h2 : env.reqUrlGetOk <;>
        simp [vconn_write_ready_finish, cache_open_write, hds, how, h1, h2, h3,
          isVconnWrite, isVconnClose, isKeyCreate, isKeyDestroy, isBufCreate,
          isBufDestroy, isContCreate, isContDestroy, isFree, isLogError]
    · simp [vconn_write_ready_finish, cache_open_write, hds, how, h1,
        isVconnWrite, isVconnClose, isKeyCreate, isKeyDestroy, isBufCreate,
        isBufDestroy, isContCreate, isContDestroy, isFree, isLogError]

/-- Witness for the amended C9 in `bodyEnvC9`. -/
theorem req_url_failure_outcome_witness :
    (vconn_write_ready_finish bodyEnvC9 zeros32).countP isVconnWrite = 0
    ∧ (vconn_write_ready_finish bodyEnvC9 zeros32).countP isVconnClose = 0
    ∧ (vconn_write_ready_finish bodyEnvC9 zeros32).countP isKeyCreate = 1
    ∧ (vconn_write_ready_finish bodyEnvC9 zeros32).countP isKeyDestroy = 1
    ∧ (vconn_write_ready_finish bodyEnvC9 zeros32).countP isBufCreate = 1
    ∧ (vconn_write_ready_finish bodyEnvC9 zeros32).countP isBufDestroy = 0
    ∧ (vconn_write_ready_finish bodyEnvC9 zeros32).countP isContCreate = 1
    ∧ (vconn_write_ready_finish bodyEnvC9 zeros32).countP isContDestroy = 0
    ∧ (vconn_write_ready_finish bodyEnvC9 zeros32).countP isFree = 0
    ∧ (vconn_write_ready_finish bodyEnvC9 zeros32).countP isLogError
        = (if bodyEnvC9.clientReqOk then 0 else 1) :=
  req_url_failure_outcome bodyEnvC9 zeros32 (by decide) (by decide)
    (Or.inl (by decide))
